import Mathlib

/-!
Shallow embedding of `src/App.jsx` (the application shell of the
AI-Student-Life-Assistant repository): the identity bootstrap effect, the
auth-state listener, the view router, the loading gate and the per-user
collection path helper.  External SDK behaviour (client construction,
sign-in outcomes, listener firings) is supplied by an explicit
environment, and the asynchronous part of a run is a list of events.
-/

namespace StudentAssistant

/-- Handle produced by the SDK client constructors (`initializeApp`,
`getFirestore`, `getAuth` in App.jsx lines 38-40); the application never
inspects it. -/
structure FirebaseClient where
  cid : Nat
  deriving DecidableEq, Repr

/-- Environment supplied by the hosting page and the identity provider:
`configKeys` is the parsed `__firebase_config` (`none` models a falsy
parse result, `some ks` an object whose key list is `ks`); `initResult`
is the outcome of client construction inside the `try` block (App.jsx
lines 38-40); `initialAuthToken` is the optional pre-issued credential
token (line 14); `tokenOk` and `anonOk` say whether the provider accepts
the custom-token sign-in and the first anonymous sign-in. -/
structure Env where
  configKeys : Option (List String)
  initResult : Except String FirebaseClient
  initialAuthToken : Option String
  tokenOk : Bool
  anonOk : Bool
  deriving Repr

/-- The guard of App.jsx line 32, negated: the configuration is usable
when `firebaseConfig` is truthy and `Object.keys(firebaseConfig).length`
is nonzero. -/
def configValid (cfg : Option (List String)) : Bool :=
  match cfg with
  | none => false
  | some ks => !ks.isEmpty

/-- One call made by the bootstrap effect against the SDK or the console:
client construction, listener registration (`onAuthStateChanged`), the
two sign-in calls, and the two `console.error` logs. -/
inductive SdkCall
  | initializeApp
  | onAuthStateChanged
  | signInWithCustomToken (tok : String)
  | signInAnonymously
  | logAuthError
  | logInitError (msg : String)
  deriving DecidableEq, Repr

/-- The calls of the anonymous branch of `attemptSignIn`: one anonymous
sign-in, and when the provider rejects it the `catch` logs the error and
awaits an anonymous sign-in again. -/
def anonSignInCalls (anonOk : Bool) : List SdkCall :=
  if anonOk then [.signInAnonymously]
  else [.signInAnonymously, .logAuthError, .signInAnonymously]

/-- The sign-in calls made by `attemptSignIn` (App.jsx lines 59-71) in
program order.  The guard `if (initialAuthToken)` (line 61) is JS
truthiness: a missing token and the empty-string token are both falsy and
take the anonymous branch.  A truthy token is attempted first; if the
awaited call rejects, the `catch` logs the error and awaits an anonymous
sign-in. -/
def attemptSignInCalls (tok : Option String) (tokenOk anonOk : Bool) : List SdkCall :=
  match tok with
  | some t =>
      if t = "" then anonSignInCalls anonOk
      else if tokenOk then [.signInWithCustomToken t]
      else [.signInWithCustomToken t, .logAuthError, .signInAnonymously]
  | none => anonSignInCalls anonOk

/-- All calls made by one run of the bootstrap effect (App.jsx lines
30-79), in program order.  With an invalid configuration the effect
returns before touching the SDK; if client construction throws, the
`catch` of line 75 logs the error and nothing else runs. -/
def bootstrapCalls (env : Env) : List SdkCall :=
  if configValid env.configKeys then
    match env.initResult with
    | .error e => [.initializeApp, .logInitError e]
    | .ok _ =>
        .initializeApp :: .onAuthStateChanged ::
          attemptSignInCalls env.initialAuthToken env.tokenOk env.anonOk
  else []

/-- The React state of the `App` component (App.jsx lines 19-27). -/
structure AppState where
  db : Option FirebaseClient
  auth : Option FirebaseClient
  userId : Option String
  isAuthReady : Bool
  loadingMessage : String
  activeTab : String
  userStatus : Option String
  deriving DecidableEq, Repr

/-- The `useState` initial values (App.jsx lines 19-27). -/
def initialState : AppState :=
  { db := none
    auth := none
    userId := none
    isAuthReady := false
    loadingMessage := "Initializing application..."
    activeTab := "Chat"
    userStatus := none }

/-- The auth-state listener callback (App.jsx lines 46-56): on a
signed-in user it stores the uid and a status line, on a signed-out
report it clears the uid; either way it sets `isAuthReady` and a loading
message. -/
def authListener (user : Option String) (s : AppState) : AppState :=
  match user with
  | some uid =>
      { s with
          userId := some uid
          userStatus := some ("Logged in as: " ++ uid.take 8 ++ "...")
          isAuthReady := true
          loadingMessage := "Authentication successful. Ready to load data." }
  | none =>
      { s with
          userId := none
          userStatus := some "Authentication failed or not started."
          isAuthReady := true
          loadingMessage := "Authentication established." }

/-- The `TabButton` click handler (App.jsx line 140). -/
def selectTab (name : String) (s : AppState) : AppState :=
  { s with activeTab := name }

/-- The body of the `try` block as far as it mutates state (App.jsx lines
38-43): client construction either throws (`.error`) or yields handles
stored by `setDb`/`setAuth`. -/
def bootstrapBody (env : Env) (s : AppState) : Except String AppState :=
  match env.initResult with
  | .error e => .error e
  | .ok c => .ok { s with db := some c, auth := some c }

/-- The synchronous state effect of the bootstrap (App.jsx lines 30-79):
an invalid configuration only sets the blocked message (lines 32-35); a
throw inside the `try` is caught and surfaced as a message (lines 75-78);
otherwise the client handles are stored.  Sign-in calls themselves mutate
no React state. -/
def bootstrapStateEffect (env : Env) (s : AppState) : AppState :=
  if configValid env.configKeys then
    match bootstrapBody env s with
    | .ok s2 => s2
    | .error e => { s with loadingMessage := "Failed to initialize Firebase: " ++ e }
  else
    { s with loadingMessage := "Firebase configuration missing. Cannot proceed with data storage." }

/-- An asynchronous event after the bootstrap ran: the auth-state
listener firing with the provider's report, or the user clicking a tab
button. -/
inductive AsyncEvent
  | listenerFire (user : Option String)
  | clickTab (name : String)
  deriving DecidableEq, Repr

/-- Effect of one asynchronous event on the component state. -/
def applyAsync (s : AppState) (e : AsyncEvent) : AppState :=
  match e with
  | .listenerFire u => authListener u s
  | .clickTab n => selectTab n s

/-- State reached by one run: the mount effect runs once, then the
asynchronous events apply in order. -/
def runState (env : Env) (evs : List AsyncEvent) : AppState :=
  evs.foldl applyAsync (bootstrapStateEffect env initialState)

/-- Whether the bootstrap registered the auth-state listener. -/
def listenerRegistered (env : Env) : Bool :=
  (bootstrapCalls env).contains .onAuthStateChanged

/-- A run is possible only if every listener firing happens after the
bootstrap actually registered the listener. -/
def ValidRun (env : Env) (evs : List AsyncEvent) : Prop :=
  ∀ u, AsyncEvent.listenerFire u ∈ evs → listenerRegistered env = true

/-- The three placeholder panels (App.jsx lines 104-120). -/
inductive PanelView
  | chatView
  | scheduleView
  | notesView
  deriving DecidableEq, Repr

/-- The view router `renderContent` (App.jsx lines 123-135): a switch on
the active tab with `ChatView` as the default case. -/
def renderContent (activeTab : String) : PanelView :=
  if activeTab = "Chat" then .chatView
  else if activeTab = "Schedule" then .scheduleView
  else if activeTab = "Notes" then .notesView
  else .chatView

/-- What the component returns to the renderer: either the blocking
loading screen (App.jsx lines 88-101) or the shell of header, routed
content and footer (lines 155-190). -/
inductive Render
  | loadingScreen (message : String)
  | shell (userId : Option String) (userStatus : Option String)
      (content : PanelView) (footerAppId : String)
  deriving DecidableEq, Repr

/-- The render logic of `App`: the early return on `!isAuthReady`
(App.jsx line 88) shows the loading screen with the current loading
message; otherwise the shell is rendered with the routed panel. -/
def renderApp (appId : String) (s : AppState) : Render :=
  if !s.isAuthReady then .loadingScreen s.loadingMessage
  else .shell s.userId s.userStatus (renderContent s.activeTab) appId

/-- A Firestore collection reference, identified by its path. -/
structure CollectionRef where
  path : String
  deriving DecidableEq, Repr

/-- `getPrivateCollectionRef` (App.jsx lines 82-85): `if (!db || !userId)
return null` — for the string `userId` the JS negation is also true on
the empty string — else a reference for the interpolated path. -/
def getPrivateCollectionRef (appId : String) (db : Option FirebaseClient)
    (userId : Option String) (collectionName : String) : Option CollectionRef :=
  match db, userId with
  | some _, some uid =>
      if uid = "" then none
      else some (CollectionRef.mk
        ("artifacts/" ++ appId ++ "/users/" ++ uid ++ "/" ++ collectionName))
  | _, _ => none

/-- Whether a call is one of the two sign-in operations. -/
def isSignInCall : SdkCall → Bool
  | .signInWithCustomToken _ => true
  | .signInAnonymously => true
  | _ => false

/-- Scanning the call list in program order, the listener registration
occurs before the first sign-in call (vacuously true when no sign-in call
occurs). -/
def listenerBeforeSignIn : List SdkCall → Bool
  | [] => true
  | .signInWithCustomToken _ :: _ => false
  | .signInAnonymously :: _ => false
  | .onAuthStateChanged :: _ => true
  | _ :: rest => listenerBeforeSignIn rest

/-- Folding the asynchronous events preserves any per-step invariant. -/
theorem foldl_applyAsync_inv (P : AppState → Prop)
    (hstep : ∀ s e, P s → P (applyAsync s e)) :
    ∀ (evs : List AsyncEvent) (s : AppState), P s → P (evs.foldl applyAsync s) := by
  intro evs
  induction evs with
  | nil => intro s hs; exact hs
  | cons e rest ih => intro s hs; exact ih _ (hstep s e hs)

/-- Folding events that contain no listener firing preserves any invariant
preserved by tab clicks. -/
theorem foldl_applyAsync_inv_noListener (P : AppState → Prop)
    (hclick : ∀ s n, P s → P (selectTab n s)) :
    ∀ (evs : List AsyncEvent), (∀ u, AsyncEvent.listenerFire u ∉ evs) →
      ∀ s, P s → P (evs.foldl applyAsync s) := by
  intro evs
  induction evs with
  | nil => intro _ s hs; exact hs
  | cons e rest ih =>
      intro hno s hs
      cases e with
      | listenerFire u => exact absurd (List.mem_cons_self _ _) (hno u)
      | clickTab n =>
          exact ih (fun u hu => hno u (List.mem_cons_of_mem _ hu)) _ (hclick s n hs)

/-- C6: the view router is a pure function mapping each of the three panel
labels to exactly its own placeholder view, the three views being pairwise
distinct, and every other selector value to the Chat placeholder. -/
theorem C6_renderContent_router :
    renderContent "Chat" = PanelView.chatView ∧
    renderContent "Schedule" = PanelView.scheduleView ∧
    renderContent "Notes" = PanelView.notesView ∧
    (∀ t : String, t ≠ "Chat" → t ≠ "Schedule" → t ≠ "Notes" →
        renderContent t = PanelView.chatView) ∧
    PanelView.chatView ≠ PanelView.scheduleView ∧
    PanelView.chatView ≠ PanelView.notesView ∧
    PanelView.scheduleView ≠ PanelView.notesView := by
  refine ⟨by decide, by decide, by decide, ?_, by decide, by decide, by decide⟩
  intro t h1 h2 h3
  simp [renderContent, h1, h2, h3]

/-- Witness for C6 at a concrete unrecognized selector. -/
theorem C6_renderContent_router_witness :
    ("Physics" : String) ≠ "Chat" ∧ renderContent "Physics" = PanelView.chatView :=
  ⟨by decide, C6_renderContent_router.2.2.2.1 "Physics" (by decide) (by decide) (by decide)⟩

/-- C7: when the readiness flag is false the render output is the blocking
loading screen with the current loading message and nothing else; when it
is true the render output is the shell of header data, routed panel and
footer. -/
theorem C7_loading_gate (a : String) (s : AppState) :
    (s.isAuthReady = false → renderApp a s = Render.loadingScreen s.loadingMessage) ∧
    (s.isAuthReady = true →
        renderApp a s = Render.shell s.userId s.userStatus (renderContent s.activeTab) a) := by
  constructor <;> intro h <;> simp [renderApp, h]

/-- Witness for C7 at the initial state. -/
theorem C7_loading_gate_witness :
    initialState.isAuthReady = false ∧
    renderApp "default-app-id" initialState =
      Render.loadingScreen initialState.loadingMessage :=
  ⟨rfl, (C7_loading_gate "default-app-id" initialState).1 rfl⟩

/-- C10 counterexample: with the database handle and the session identity
both set but the identity equal to the empty string, the helper returns
`none` rather than a reference for the interpolated path, so the claim as
stated fails at this input. -/
theorem C10_counterexample :
    (some (FirebaseClient.mk 0)).isSome = true ∧
    (some ("" : String)).isSome = true ∧
    getPrivateCollectionRef "default-app-id" (some (FirebaseClient.mk 0)) (some "") "notes" = none ∧
    getPrivateCollectionRef "default-app-id" (some (FirebaseClient.mk 0)) (some "") "notes" ≠
      some (CollectionRef.mk "artifacts/default-app-id/users//notes") := by
  refine ⟨rfl, rfl, ?_, ?_⟩ <;> decide

/-- C10 amended: the helper returns `none` whenever the database handle is
unset or the session identity is unset or the empty string; when the
handle is set and the identity is a non-empty string it returns a
reference for the path artifacts/(appId)/users/(userId)/(collectionName). -/
theorem C10_private_path_helper (a cn : String) (db : Option FirebaseClient)
    (uid : Option String) :
    ((db = none ∨ uid = none ∨ uid = some "") →
        getPrivateCollectionRef a db uid cn = none) ∧
    (∀ (d : FirebaseClient) (u : String), db = some d → uid = some u → u ≠ "" →
        getPrivateCollectionRef a db uid cn =
          some (CollectionRef.mk ("artifacts/" ++ a ++ "/users/" ++ u ++ "/" ++ cn))) := by
  constructor
  · rintro (rfl | rfl | rfl)
    · cases uid <;> rfl
    · cases db <;> rfl
    · cases db <;> simp [getPrivateCollectionRef]
  · rintro d u rfl rfl hu
    simp [getPrivateCollectionRef, hu]

/-- The bootstrap effect never changes the readiness flag. -/
theorem bootstrapStateEffect_isAuthReady (env : Env) (s : AppState) :
    (bootstrapStateEffect env s).isAuthReady = s.isAuthReady := by
  unfold bootstrapStateEffect bootstrapBody
  cases h : configValid env.configKeys <;> cases hr : env.initResult <;> simp [h, hr]

/-- The bootstrap effect never changes the session identity. -/
theorem bootstrapStateEffect_userId (env : Env) (s : AppState) :
    (bootstrapStateEffect env s).userId = s.userId := by
  unfold bootstrapStateEffect bootstrapBody
  cases h : configValid env.configKeys <;> cases hr : env.initResult <;> simp [h, hr]

/-- No asynchronous event resets a true readiness flag. -/
theorem applyAsync_preserves_ready (s : AppState) (e : AsyncEvent)
    (h : s.isAuthReady = true) : (applyAsync s e).isAuthReady = true := by
  cases e with
  | listenerFire u => cases u <;> rfl
  | clickTab n => exact h

/-- A concrete valid environment with no pre-issued token. -/
def envOkNoToken : Env :=
  Env.mk (some ["apiKey"]) (Except.ok (FirebaseClient.mk 0)) none true true

/-- A concrete environment whose parsed configuration has no keys. -/
def envEmptyConfig : Env :=
  Env.mk (some []) (Except.ok (FirebaseClient.mk 0)) none true true

/-- C2: with an empty provider configuration, every state of every
possible run has the readiness flag false, carries (after the bootstrap)
the blocked status message, stores no client handle, and the bootstrap
makes no SDK call at all: no client construction, no listener
registration, no sign-in. -/
theorem C2_empty_config_blocked (env : Env)
    (hempty : configValid env.configKeys = false)
    (evs : List AsyncEvent) (hvalid : ValidRun env evs) :
    (runState env evs).isAuthReady = false ∧
    (runState env evs).loadingMessage =
      "Firebase configuration missing. Cannot proceed with data storage." ∧
    (runState env evs).db = none ∧
    (runState env evs).auth = none ∧
    bootstrapCalls env = [] := by
  have hcalls : bootstrapCalls env = [] := by
    simp [bootstrapCalls, hempty]
  have hreg : listenerRegistered env = false := by
    simp [listenerRegistered, hcalls]
  have hno : ∀ u, AsyncEvent.listenerFire u ∉ evs := by
    intro u hu
    have h := hvalid u hu
    rw [hreg] at h
    exact Bool.noConfusion h
  have hboot : bootstrapStateEffect env initialState =
      { initialState with
          loadingMessage :=
            "Firebase configuration missing. Cannot proceed with data storage." } := by
    simp [bootstrapStateEffect, hempty]
  have hinv := foldl_applyAsync_inv_noListener
    (fun st => st.isAuthReady = false ∧
      st.loadingMessage =
        "Firebase configuration missing. Cannot proceed with data storage." ∧
      st.db = none ∧ st.auth = none)
    (fun s n h => h) evs hno (bootstrapStateEffect env initialState)
    (by rw [hboot]; exact ⟨rfl, rfl, rfl, rfl⟩)
  exact ⟨hinv.1, hinv.2.1, hinv.2.2.1, hinv.2.2.2, hcalls⟩

/-- Witness for C2 at a concrete empty configuration and the empty run. -/
theorem C2_empty_config_blocked_witness :
    configValid envEmptyConfig.configKeys = false ∧
    (runState envEmptyConfig []).isAuthReady = false ∧
    bootstrapCalls envEmptyConfig = [] := by
  have h := C2_empty_config_blocked envEmptyConfig (by decide) []
    (fun u hu => absurd hu (List.not_mem_nil _))
  exact ⟨by decide, h.1, h.2.2.2.2⟩

/-- C5: the readiness flag starts false, stays false in any run in which
the listener never fired, is set true by every listener invocation
(signed-in or signed-out report alike), and no operation of the program
resets it: every asynchronous step and the bootstrap itself preserve a
true flag, so it stays true over any continuation of a run. -/
theorem C5_readiness_flag (env : Env) :
    initialState.isAuthReady = false ∧
    (∀ evs : List AsyncEvent, (∀ u, AsyncEvent.listenerFire u ∉ evs) →
        (runState env evs).isAuthReady = false) ∧
    (∀ (u : Option String) (s : AppState), (authListener u s).isAuthReady = true) ∧
    (∀ (s : AppState) (e : AsyncEvent),
        s.isAuthReady = true → (applyAsync s e).isAuthReady = true) ∧
    (∀ s : AppState, s.isAuthReady = true → (bootstrapStateEffect env s).isAuthReady = true) ∧
    (∀ evs rest : List AsyncEvent, (runState env evs).isAuthReady = true →
        (runState env (evs ++ rest)).isAuthReady = true) := by
  refine ⟨rfl, ?_, ?_, applyAsync_preserves_ready, ?_, ?_⟩
  · intro evs hno
    exact foldl_applyAsync_inv_noListener (fun st => st.isAuthReady = false)
      (fun s n h => h) evs hno _
      (by show (bootstrapStateEffect env initialState).isAuthReady = false
          rw [bootstrapStateEffect_isAuthReady]
          rfl)
  · intro u s; cases u <;> rfl
  · intro s h; rw [bootstrapStateEffect_isAuthReady]; exact h
  · intro evs rest h
    show ((evs ++ rest).foldl applyAsync (bootstrapStateEffect env initialState)).isAuthReady = true
    rw [List.foldl_append]
    exact foldl_applyAsync_inv (fun st => st.isAuthReady = true)
      applyAsync_preserves_ready rest _ h

/-- Witness for C5: a concrete run with only a tab click leaves the
readiness flag false. -/
theorem C5_readiness_flag_witness :
    (runState envOkNoToken [AsyncEvent.clickTab "Notes"]).isAuthReady = false :=
  (C5_readiness_flag envOkNoToken).2.1 [AsyncEvent.clickTab "Notes"]
    (fun u hu => by simp at hu)

/-- C9: the session identity is `none` in every state in which the
readiness flag is still false; a listener invocation reporting a
signed-in user stores exactly that user's identifier, and one reporting a
signed-out state clears the identity back to `none`. -/
theorem C9_session_identity (env : Env) :
    (∀ evs : List AsyncEvent, (runState env evs).isAuthReady = false →
        (runState env evs).userId = none) ∧
    (∀ (s : AppState) (uid : String), (authListener (some uid) s).userId = some uid) ∧
    (∀ s : AppState, (authListener none s).userId = none) := by
  refine ⟨?_, fun s uid => rfl, fun s => rfl⟩
  intro evs
  exact foldl_applyAsync_inv (fun st => st.isAuthReady = false → st.userId = none)
    (fun s e hP hready => by
      cases e with
      | listenerFire u => cases u <;> simp [applyAsync, authListener] at hready
      | clickTab n => exact hP hready)
    evs _ (fun _ => by rw [bootstrapStateEffect_userId]; rfl)

/-- Witness for C9 at a concrete environment and the empty run. -/
theorem C9_session_identity_witness :
    (runState envOkNoToken []).isAuthReady = false ∧
    (runState envOkNoToken []).userId = none :=
  ⟨rfl, (C9_session_identity envOkNoToken).1 [] rfl⟩

/-- A concrete environment with a valid configuration and a token the
provider rejects. -/
def envTokenRejected : Env :=
  Env.mk (some ["apiKey"]) (Except.ok (FirebaseClient.mk 0)) (some "badtok") false true

/-- A concrete environment in which client construction throws. -/
def envInitThrows : Env :=
  Env.mk (some ["apiKey"]) (Except.error "boom") none true true

/-- C1 counterexample: with a valid configuration, no pre-issued token and
a provider that rejects the anonymous sign-in, the catch handler attempts
anonymous sign-in a second time, so the sign-in sequence makes two
anonymous attempts, not exactly one. -/
theorem C1_counterexample :
    (bootstrapCalls (Env.mk (some ["apiKey"]) (Except.ok (FirebaseClient.mk 0))
        none true false)).count SdkCall.signInAnonymously = 2 ∧
    ¬ (bootstrapCalls (Env.mk (some ["apiKey"]) (Except.ok (FirebaseClient.mk 0))
        none true false)).count SdkCall.signInAnonymously = 1 := by
  constructor <;> decide

/-- C1 amended: with a valid configuration, successful client construction
and no pre-issued token, anonymous sign-in is attempted exactly once when
the provider accepts it and exactly twice when the provider rejects it
(the catch handler then retries anonymously); the readiness flag is true
after any run whose last event is the listener firing. -/
theorem C1_anonymous_signin (env : Env) (c : FirebaseClient)
    (hv : configValid env.configKeys = true)
    (hok : env.initResult = Except.ok c)
    (htok : env.initialAuthToken = none) :
    (env.anonOk = true →
        (bootstrapCalls env).count SdkCall.signInAnonymously = 1) ∧
    (env.anonOk = false →
        (bootstrapCalls env).count SdkCall.signInAnonymously = 2) ∧
    (∀ (evs : List AsyncEvent) (u : Option String),
        (runState env (evs ++ [AsyncEvent.listenerFire u])).isAuthReady = true) := by
  refine ⟨?_, ?_, ?_⟩
  · intro ha
    simp only [bootstrapCalls, attemptSignInCalls, anonSignInCalls, hv, hok, htok, ha,
      if_true]
    decide
  · intro ha
    simp only [bootstrapCalls, attemptSignInCalls, anonSignInCalls, hv, hok, htok, ha,
      if_true]
    decide
  · intro evs u
    show ((evs ++ [AsyncEvent.listenerFire u]).foldl applyAsync
        (bootstrapStateEffect env initialState)).isAuthReady = true
    rw [List.foldl_append]
    cases u <;> rfl

/-- Witness for C1 amended at a concrete environment. -/
theorem C1_anonymous_signin_witness :
    configValid envOkNoToken.configKeys = true ∧
    (bootstrapCalls envOkNoToken).count SdkCall.signInAnonymously = 1 :=
  ⟨by decide,
    (C1_anonymous_signin envOkNoToken (FirebaseClient.mk 0) (by decide) rfl rfl).1 rfl⟩

/-- C3: with a valid configuration and a pre-issued token — non-empty, so
the truthy guard of App.jsx line 61 actually submits it — that the
provider rejects, the sign-in calls are exactly the token attempt
followed by one anonymous fallback, the original error is logged, the
bootstrap state change contains no error text (only the stored client
handles), and the readiness flag is true after any run whose last event
is the listener firing. -/
theorem C3_token_fallback (env : Env) (c : FirebaseClient) (t : String)
    (hv : configValid env.configKeys = true)
    (hok : env.initResult = Except.ok c)
    (htok : env.initialAuthToken = some t)
    (hne : t ≠ "")
    (hrej : env.tokenOk = false) :
    (bootstrapCalls env).filter isSignInCall =
      [SdkCall.signInWithCustomToken t, SdkCall.signInAnonymously] ∧
    SdkCall.logAuthError ∈ bootstrapCalls env ∧
    bootstrapStateEffect env initialState =
      { initialState with db := some c, auth := some c } ∧
    (∀ (evs : List AsyncEvent) (u : Option String),
        (runState env (evs ++ [AsyncEvent.listenerFire u])).isAuthReady = true) := by
  refine ⟨?_, ?_, ?_, ?_⟩
  · simp [bootstrapCalls, attemptSignInCalls, hv, hok, htok, hne, hrej, isSignInCall,
      List.filter]
  · simp [bootstrapCalls, attemptSignInCalls, hv, hok, htok, hne, hrej]
  · simp [bootstrapStateEffect, bootstrapBody, hv, hok]
  · intro evs u
    show ((evs ++ [AsyncEvent.listenerFire u]).foldl applyAsync
        (bootstrapStateEffect env initialState)).isAuthReady = true
    rw [List.foldl_append]
    cases u <;> rfl

/-- Witness for C3 at a concrete rejected token. -/
theorem C3_token_fallback_witness :
    (bootstrapCalls envTokenRejected).filter isSignInCall =
      [SdkCall.signInWithCustomToken "badtok", SdkCall.signInAnonymously] :=
  (C3_token_fallback envTokenRejected (FirebaseClient.mk 0) "badtok"
    (by decide) rfl rfl (by decide) rfl).1

/-- C4: for every environment with a non-empty configuration, scanning the
bootstrap's calls in program order finds the listener registration before
the first sign-in call, and when client construction succeeds the listener
registration is indeed among the calls. -/
theorem C4_listener_before_signin (env : Env)
    (hv : configValid env.configKeys = true) :
    listenerBeforeSignIn (bootstrapCalls env) = true ∧
    (∀ c : FirebaseClient, env.initResult = Except.ok c →
        SdkCall.onAuthStateChanged ∈ bootstrapCalls env) := by
  constructor
  · cases hr : env.initResult with
    | error e => simp [bootstrapCalls, hv, hr, listenerBeforeSignIn]
    | ok c => simp [bootstrapCalls, hv, hr, listenerBeforeSignIn]
  · intro c hok
    simp [bootstrapCalls, hv, hok]

/-- Witness for C4 at a concrete environment. -/
theorem C4_listener_before_signin_witness :
    configValid envOkNoToken.configKeys = true ∧
    listenerBeforeSignIn (bootstrapCalls envOkNoToken) = true :=
  ⟨by decide, (C4_listener_before_signin envOkNoToken (by decide)).1⟩

/-- C8: if the try body of the bootstrap raises (client construction
fails) under a valid configuration, the catch absorbs it: the resulting
state differs from the previous one only in the loading message, which
carries the error text, and the shell still renders the loading screen
rather than crashing. -/
theorem C8_init_exception_caught (env : Env) (s : AppState) (e : String)
    (hv : configValid env.configKeys = true)
    (herr : bootstrapBody env s = Except.error e) :
    bootstrapStateEffect env s =
      { s with loadingMessage := "Failed to initialize Firebase: " ++ e } ∧
    (s.isAuthReady = false → ∀ a : String,
        renderApp a (bootstrapStateEffect env s) =
          Render.loadingScreen ("Failed to initialize Firebase: " ++ e)) := by
  have heq : bootstrapStateEffect env s =
      { s with loadingMessage := "Failed to initialize Firebase: " ++ e } := by
    simp [bootstrapStateEffect, hv, herr]
  refine ⟨heq, ?_⟩
  intro hready a
  rw [heq]
  simp [renderApp, hready]

/-- Witness for C8 at a concrete construction failure. -/
theorem C8_init_exception_caught_witness :
    bootstrapStateEffect envInitThrows initialState =
      { initialState with loadingMessage := "Failed to initialize Firebase: " ++ "boom" } :=
  (C8_init_exception_caught envInitThrows initialState "boom" (by decide) rfl).1

/-- Witness for C10 amended at concrete inputs. -/
theorem C10_private_path_helper_witness :
    getPrivateCollectionRef "default-app-id" (some (FirebaseClient.mk 0)) (some "user1234") "notes" =
      some (CollectionRef.mk ("artifacts/" ++ "default-app-id" ++ "/users/" ++ "user1234" ++ "/" ++ "notes")) :=
  (C10_private_path_helper "default-app-id" "notes" (some (FirebaseClient.mk 0)) (some "user1234")).2
    (FirebaseClient.mk 0) "user1234" rfl rfl (by decide)

end StudentAssistant
